import Mathlib

/-!
Shallow embedding of the common-watchlist resolution pipeline of app.go:
the data model (Movie, Person, User, TMDBMovie), the title-variant search
logic of GetTMDBDetails, the per-user fetch and intersection steps of
FindCommonMovies, and the final ranking sort.  Network traffic is modelled
by oracles: a response stream for the TMDB search and detail endpoints, and
per-username results for profile and watchlist scraping.  Real-time sleeps
are modelled as events in an observable trace.
-/

namespace Klisse

/-- Person mirrors the Go struct Person (a director or cast member). -/
structure Person where
  Name : String
  ID : Int
deriving Repr, DecidableEq

/-- User mirrors the Go struct User (a Letterboxd user shown on a result). -/
structure User where
  Name : String
  Avatar : String
deriving Repr, DecidableEq

/-- Movie mirrors the Go struct Movie: one final result record. Ratings are
embedded as rationals (Go float64 vote averages are finite decimals). -/
structure Movie where
  Title : String
  URL : String
  Rating : Rat
  FormattedRating : String
  PosterURL : String
  BackdropURL : String
  LogoURL : String
  ReleaseDate : String
  ReleaseYear : String
  Runtime : Int
  FormattedRuntime : String
  Genres : List String
  IMDBID : String
  Overview : String
  Director : Person
  Cast : List Person
  Users : List User
  Count : Nat
deriving Repr, DecidableEq

/-- Genre mirrors the anonymous genre struct in TMDBMovie. -/
structure Genre where
  Name : String
deriving Repr, DecidableEq

/-- CrewMember mirrors the anonymous crew struct in TMDBMovie.Credits. -/
structure CrewMember where
  Name : String
  Job : String
  ID : Int
deriving Repr, DecidableEq

/-- CastMember mirrors the anonymous cast struct in TMDBMovie.Credits. -/
structure CastMember where
  Name : String
  ID : Int
deriving Repr, DecidableEq

/-- Logo mirrors the anonymous logo struct in TMDBMovie.Images (ISO6391 is
nil-able in Go, hence Option). -/
structure Logo where
  FilePath : String
  ISO6391 : Option String
deriving Repr, DecidableEq

/-- TMDBMovie mirrors the Go struct TMDBMovie (a decoded detail payload);
the nested Credits and Images structs are flattened into prefixed fields. -/
structure TMDBMovie where
  ID : Int
  VoteAverage : Rat
  PosterPath : String
  BackdropPath : String
  ReleaseDate : String
  Runtime : Int
  Genres : List Genre
  IMDBID : String
  Overview : String
  CreditsCrew : List CrewMember
  CreditsCast : List CastMember
  ImagesLogos : List Logo
deriving Repr, DecidableEq

/-- isSpaceGo is the character class of the Go regexp \s: [\t\n\f\r ]. -/
def isSpaceGo (c : Char) : Bool :=
  c = ' ' || c = '\t' || c = '\n' || c = '\x0c' || c = '\r'

/-- isWordChar is the character class of the Go regexp \w: [0-9A-Za-z_]. -/
def isWordChar (c : Char) : Bool :=
  c.isAlphanum || c = '_'

/-- trimGo models strings.TrimSpace: drop leading and trailing whitespace
(the exotic Unicode spaces of Go unicode.IsSpace are abstracted away). -/
def trimGo (t : String) : String :=
  String.mk (((t.data.dropWhile isSpaceGo).reverse.dropWhile isSpaceGo).reverse)

/-- yearOfSix recognizes the shape (dddd) in a title's last six characters. -/
def yearOfSix : List Char → Option String
  | ['(', a, b, c, d, ')'] =>
    if a.isDigit && b.isDigit && c.isDigit && d.isDigit then
      some (String.mk [a, b, c, d])
    else none
  | _ => none

/-- yearSuffix is the capture group of the Go regexp \((\d{4})\)$ applied to
a title: the trailing parenthesized 4-digit year, if present. -/
def yearSuffix (t : String) : Option String :=
  if 6 ≤ t.data.length then yearOfSix (t.data.drop (t.data.length - 6)) else none

/-- stripYear models yearRegex.ReplaceAllString(movieTitle, "") followed by
strings.TrimSpace, applied only when the year pattern matched (as in the Go
code, which reassigns movieTitle only inside the match branch). -/
def stripYear (t : String) : String :=
  match yearSuffix t with
  | some _ => trimGo (String.mk (t.data.take (t.data.length - 6)))
  | none => t

/-- cleanTitle models regexp [^\w\s] replaced by "": keep exactly the word
characters and whitespace of the title. -/
def cleanTitle (t : String) : String :=
  String.mk (t.data.filter (fun c => isWordChar c || isSpaceGo c))

/-- replacePair models one strings.ReplaceAll with a single-character old
string: every occurrence of old becomes the new character list. -/
def replacePair (old : Char) (new : List Char) (s : List Char) : List Char :=
  s.flatMap (fun c => if c = old then new else [c])

/-- applyReplacements models the four strings.ReplaceAll calls over the
commonReplacements map. Go iterates that map in unspecified order; the four
replacements are independent (no output contains another pair's input), so
any order gives this result — proved below as applyReplacements_eq_flatMap. -/
def applyReplacements (s : List Char) : List Char :=
  replacePair ':' [] (replacePair '-' [' '] (replacePair '\'' [] (replacePair '&' ['a', 'n', 'd'] s)))

/-- replaceChar is the per-character effect of the commonReplacements map. -/
def replaceChar (c : Char) : List Char :=
  if c = '&' then ['a', 'n', 'd']
  else if c = '\'' then []
  else if c = '-' then [' ']
  else if c = ':' then []
  else [c]

/-- collapseSpaces models regexp \s+ replaced by a single space. -/
def collapseSpaces : List Char → List Char
  | [] => []
  | [c] => [if isSpaceGo c then ' ' else c]
  | c₁ :: c₂ :: cs =>
    if isSpaceGo c₁ && isSpaceGo c₂ then collapseSpaces (c₂ :: cs)
    else (if isSpaceGo c₁ then ' ' else c₁) :: collapseSpaces (c₂ :: cs)

/-- altTitle is the third search variation: the common replacements applied,
then TrimSpace, then whitespace runs collapsed to single spaces. -/
def altTitle (t : String) : String :=
  String.mk (collapseSpaces (trimGo (String.mk (applyReplacements t.data))).data)

/-- searchVariations is the ordered variant list GetTMDBDetails builds from
the (already year-stripped) title: the title itself, then cleanTitle when it
differs, then altTitle when it differs. -/
def searchVariations (movieTitle : String) : List String :=
  [movieTitle]
    ++ (if cleanTitle movieTitle ≠ movieTitle then [cleanTitle movieTitle] else [])
    ++ (if altTitle movieTitle ≠ movieTitle then [altTitle movieTitle] else [])

deriving instance DecidableEq for Except

/-- HttpEvent is one observable step of GetTMDBDetails: an outbound request
(search query plus optional year constraint, or a detail request by id) or a
time.Sleep of the given milliseconds. -/
inductive HttpEvent where
  | get (query : String) (year : Option String)
  | getDetails (id : Int)
  | sleepMs (ms : Nat)
deriving Repr, DecidableEq

/-- HttpResult is the oracle's answer to one search request: a transport
error (http.Get returned err), or a response with a status code and a body
that either decodes to the result id list or fails to parse. -/
inductive HttpResult where
  | transportErr (msg : String)
  | resp (status : Nat) (body : Except String (List Int))
deriving Repr, DecidableEq

/-- StepOutcome is what one loop iteration of the search produced: a movie
id (break), or a failure — some msg records a new searchErr, none means the
response was an empty result list (searchErr is left unchanged). -/
inductive StepOutcome where
  | found (id : Int)
  | failed (msg : Option String)
deriving Repr, DecidableEq

/-- StepRes is one variant iteration's trace, outcome and remaining net. -/
structure StepRes where
  trace : List HttpEvent
  outcome : StepOutcome
  net : List HttpResult
deriving Repr, DecidableEq

/-- SearchOut is the search loop's result: the event trace, the movie id of
the break (none when every variant was exhausted), the last recorded
searchErr and the unconsumed response stream. -/
structure SearchOut where
  trace : List HttpEvent
  movieID : Option Int
  err : Option String
  net : List HttpResult
deriving Repr, DecidableEq

/-- checkResp models the status-code and JSON-decode checks a response goes
through after the rate-limit branch (app.go lines 290-308). A transport
error here can only come from the retried request, whose message prefix is
"retry failed". -/
def checkResp (r : HttpResult) : StepOutcome :=
  match r with
  | .transportErr e => .failed (some ("retry failed: " ++ e))
  | .resp s body =>
    if s ≠ 200 then .failed (some ("API error: status code " ++ toString s))
    else
      match body with
      | .error pe => .failed (some ("parse error: " ++ pe))
      | .ok [] => .failed none
      | .ok (id :: _) => .found id

/-- searchStep is one iteration of the variant loop for variant v (without
the inter-variant sleep): issue the request; on transport error record it;
on status 429 sleep 2 s and issue the same request once more, then run the
ordinary checks on whatever came back. An exhausted oracle behaves as a
transport error. -/
def searchStep (year : Option String) (v : String) (net : List HttpResult) : StepRes :=
  match net with
  | [] => ⟨[.get v year], .failed (some "network error: no response"), []⟩
  | .transportErr e :: rest => ⟨[.get v year], .failed (some ("network error: " ++ e)), rest⟩
  | .resp s body :: rest =>
    if s = 429 then
      match rest with
      | [] => ⟨[.get v year, .sleepMs 2000, .get v year], .failed (some "retry failed: no response"), []⟩
      | r :: rest2 => ⟨[.get v year, .sleepMs 2000, .get v year], checkResp r, rest2⟩
    else ⟨[.get v year], checkResp (.resp s body), rest⟩

/-- searchLoop models the for-loop over searchVariations: sleep 250 ms
before every attempt after the first, run searchStep, break on a found id,
otherwise record the step's error (if any) and move to the next variant. -/
def searchLoop (year : Option String) : List String → Bool → Option String → List HttpResult → SearchOut
  | [], _, err, net => ⟨[], none, err, net⟩
  | v :: vs, first, err, net =>
    let pre : List HttpEvent := if first then [] else [.sleepMs 250]
    let s := searchStep year v net
    match s.outcome with
    | .found id => ⟨pre ++ s.trace, some id, err, s.net⟩
    | .failed m =>
      let err2 : Option String := match m with | some msg => some msg | none => err
      let r := searchLoop year vs false err2 s.net
      ⟨pre ++ s.trace ++ r.trace, r.movieID, r.err, r.net⟩

/-- DetailResult is the oracle's answer to one detail request. -/
inductive DetailResult where
  | transportErr (msg : String)
  | resp (status : Nat) (body : Except String TMDBMovie)
deriving Repr, DecidableEq

/-- detailParse models the JSON decode of a 200 detail response. -/
def detailParse (body : Except String TMDBMovie) : Except String TMDBMovie :=
  match body with
  | .error pe => .error ("failed to parse movie details: " ++ pe)
  | .ok m => .ok m

/-- detailOk is the detail retry loop's break condition: err == nil and
StatusCode == 200. -/
def detailOk (r : DetailResult) : Bool :=
  match r with
  | .transportErr _ => false
  | .resp s _ => s = 200

/-- detailFinish models the checks after the detail retry loop on the last
attempt's outcome: the transport error first, then a non-200 status, then
the JSON decode. -/
def detailFinish (r : DetailResult) : Except String TMDBMovie :=
  match r with
  | .transportErr e => .error ("failed to get movie details: " ++ e)
  | .resp s body =>
    if s ≠ 200 then .error ("details API error: status code " ++ toString s)
    else detailParse body

/-- detailFetch models the detail request with one retry (app.go lines
317-348): up to two attempts, a 500 ms sleep before the second, breaking on
err == nil and status 200; after the loop the last attempt's transport
error, then its status, then the decode are checked in that order. -/
def detailFetch (id : Int) (net : List DetailResult) : List HttpEvent × Except String TMDBMovie :=
  match net with
  | [] => ([.getDetails id], .error "failed to get movie details: no response")
  | r1 :: rest =>
    if detailOk r1 then ([.getDetails id], detailFinish r1)
    else
      match rest with
      | [] => ([.getDetails id, .sleepMs 500, .getDetails id], .error "failed to get movie details: no response")
      | r2 :: _ => ([.getDetails id, .sleepMs 500, .getDetails id], detailFinish r2)

/-- TMDBEnv is the oracle for one GetTMDBDetails call: the response streams
of the search endpoint and of the detail endpoint. -/
structure TMDBEnv where
  searchNet : List HttpResult
  detailNet : List DetailResult

/-- GetTMDBDetails models the Go function of the same name: refuse an
unconfigured API key, extract the trailing year, try the search variations
in order, and fetch the details of the first found id (the Go movieID == 0
check also treats a found id of 0 as no match, since 0 is the unset value). -/
def GetTMDBDetails (apiKey : String) (env : TMDBEnv) (movieTitle : String) :
    List HttpEvent × Except String TMDBMovie :=
  if apiKey = "" ∨ apiKey.utf8ByteSize < 10 then
    ([], .error "TMDB API key not configured")
  else
    let year := yearSuffix movieTitle
    let searchTitle := stripYear movieTitle
    let s := searchLoop year (searchVariations searchTitle) true none env.searchNet
    match s.movieID with
    | none => (s.trace, .error ("no movie found for: " ++ movieTitle))
    | some id =>
      if id = 0 then (s.trace, .error ("no movie found for: " ++ movieTitle))
      else
        let d := detailFetch id env.detailNet
        (s.trace ++ d.1, d.2)

/-- AggData mirrors the anonymous struct stored in the movieCounts map of
FindCommonMovies: the contributing usernames and the first-seen URL. -/
structure AggData where
  Users : List String
  URL : String
deriving Repr, DecidableEq

/-- updateTitle is one movieCounts map update of FindCommonMovies (lines
441-457): a new title is inserted with Users = [user] and the entry's URL; an
existing title gets the user appended and keeps its URL.  The Go map is
embedded as an association list in insertion order. -/
def updateTitle : List (String × AggData) → String → String → String → List (String × AggData)
  | [], t, user, url => [(t, ⟨[user], url⟩)]
  | (t0, d) :: rest, t, user, url =>
    if t0 = t then (t0, ⟨d.Users ++ [user], d.URL⟩) :: rest
    else (t0, d) :: updateTitle rest t user url

/-- processUser folds one user's watchlist entries into the counts map. -/
def processUser (m : List (String × AggData)) (user : String) (wl : List (String × String)) :
    List (String × AggData) :=
  wl.foldl (fun acc e => updateTitle acc e.1 user e.2) m

/-- buildCounts is the intersection step of FindCommonMovies: fold every
(user, watchlist) pair into the counts map.  Go iterates scrapedData in
unspecified map order; the order is taken as an input here (the data list's
order), and every theorem below holds for all orders. -/
def buildCounts (data : List (String × List (String × String))) : List (String × AggData) :=
  data.foldl (fun m uw => processUser m uw.1 uw.2) []

/-- lookupTitle is association-list lookup, the embedding of movieCounts[t]. -/
def lookupTitle : List (String × AggData) → String → Option AggData
  | [], _ => none
  | (t0, d) :: rest, t => if t0 = t then some d else lookupTitle rest t

/-- contributors lists, in data order, the users whose watchlist contains
the title — the specification's "distinct users whose watchlist contained
title" when the data's usernames are distinct. -/
def contributors (t : String) (data : List (String × List (String × String))) : List String :=
  (data.filter (fun uw => uw.2.any (fun e => e.1 = t))).map (fun uw => uw.1)

/-- firstHit is the detail URL of the first watchlist entry carrying the
title, in data order: the "first-seen link". -/
def firstHit (t : String) : List (String × List (String × String)) → Option String
  | [] => none
  | uw :: rest =>
    match uw.2.find? (fun e => e.1 = t) with
    | some e => some e.2
    | none => firstHit t rest

/-- fmtRating abstracts fmt.Sprintf("%.1f", rating): the rating rounded to
one decimal digit and printed (ratings are nonnegative in TMDB data). -/
def fmtRating (q : Rat) : String :=
  let n : Int := ⌊q * 10 + 1 / 2⌋
  toString (n / 10) ++ "." ++ toString (n % 10)

/-- logoScan is the logo selection loop (app.go lines 517-527): break on the
first English-tagged logo; otherwise remember the first language-neutral one
(nil or "xx") as noLangLogoPath. Returns (logoPath, noLangLogoPath). -/
def logoScan : List Logo → String → String × String
  | [], noLang => ("", noLang)
  | l :: ls, noLang =>
    if l.ISO6391 = some "en" then (l.FilePath, noLang)
    else
      let noLang2 := if noLang = "" ∧ (l.ISO6391 = none ∨ l.ISO6391 = some "xx") then l.FilePath else noLang
      logoScan ls noLang2

/-- logoPick is the selected logo path: the loop's logoPath, else its
noLangLogoPath (app.go lines 528-530). -/
def logoPick (logos : List Logo) : String :=
  let s := logoScan logos ""
  if s.1 = "" then s.2 else s.1

/-- findDirector is the crew loop (app.go lines 563-569): the first crew
member whose Job is "Director", else the zero-value "N/A" person. -/
def findDirector : List CrewMember → Person
  | [] => ⟨"N/A", 0⟩
  | c :: cs => if c.Job = "Director" then ⟨c.Name, c.ID⟩ else findDirector cs

/-- firstSegment is strings.Split(s, "-")[0]: the prefix before the first
hyphen. -/
def firstSegment (s : String) : String :=
  String.mk (s.data.takeWhile (fun c => c ≠ '-'))

/-- releaseYearOf models app.go lines 535-544: the first dash-separated
segment of a nonempty release date, with "----" when that leaves nothing. -/
def releaseYearOf (rd : String) : String :=
  let ry := if rd ≠ "" then firstSegment rd else ""
  if ry = "" then "----" else ry

/-- noPosterURL is the shared placeholder artwork reference. -/
def noPosterURL : String :=
  "https://placehold.co/500x750/1f1f1f/ffffff?text=No+Poster"

/-- buildMovieOk is the TMDB-success branch of FindCommonMovies (app.go
lines 495-578): derive every metadata field from the decoded payload. -/
def buildMovieOk (title url : String) (users : List User) (count : Nat) (td : TMDBMovie) : Movie :=
  let posterURL := if td.PosterPath ≠ "" then "https://image.tmdb.org/t/p/w500" ++ td.PosterPath else noPosterURL
  { Title := title
    URL := url
    Rating := td.VoteAverage
    FormattedRating := if 0 < td.VoteAverage then fmtRating td.VoteAverage else "N/A"
    PosterURL := posterURL
    BackdropURL := if td.BackdropPath ≠ "" then "https://image.tmdb.org/t/p/original" ++ td.BackdropPath else posterURL
    LogoURL := if logoPick td.ImagesLogos ≠ "" then "https://image.tmdb.org/t/p/original" ++ logoPick td.ImagesLogos else ""
    ReleaseDate := td.ReleaseDate
    ReleaseYear := releaseYearOf td.ReleaseDate
    Runtime := td.Runtime
    FormattedRuntime := if 0 < td.Runtime then toString td.Runtime ++ " min" else ""
    Genres := td.Genres.map Genre.Name
    IMDBID := td.IMDBID
    Overview := if td.Overview = "" then "No overview available." else td.Overview
    Director := findDirector td.CreditsCrew
    Cast := (td.CreditsCast.take 5).map (fun c => ⟨c.Name, c.ID⟩)
    Users := users
    Count := count }

/-- buildMovieErr is the TMDB-failure branch of FindCommonMovies (app.go
lines 478-494): the deterministic placeholder metadata. -/
def buildMovieErr (title url : String) (users : List User) (count : Nat) : Movie :=
  { Title := title
    URL := url
    Rating := 0
    FormattedRating := "N/A"
    PosterURL := noPosterURL
    BackdropURL := noPosterURL
    LogoURL := ""
    ReleaseDate := "0000-00-00"
    ReleaseYear := "----"
    Runtime := 0
    FormattedRuntime := ""
    Genres := []
    IMDBID := ""
    Overview := "No overview available."
    Director := ⟨"N/A", 0⟩
    Cast := []
    Users := users
    Count := count }

/-- Env is the oracle of one FindCommonMovies call: per-username profile
scrape (GetUserAvatar), per-username watchlist scrape outcome (the title to
URL map colly extracted, or the visit/scrape error), and the per-title
GetTMDBDetails outcome. -/
structure Env where
  avatar : String → Except String String
  scrape : String → Except String (List (String × String))
  tmdb : String → Except String TMDBMovie

/-- avatarOf is the userAvatars map lookup: the validated avatar of a user
(Go map lookup yields the zero value "" for a user that never validated). -/
def avatarOf (env : Env) (u : String) : String :=
  match env.avatar u with
  | .ok a => a
  | .error _ => ""

/-- GetWatchlist models the Go function of the same name around its scrape
oracle: pass a scrape failure through, and reject an empty extracted map
(app.go lines 198-206). -/
def GetWatchlist (env : Env) (u : String) : Except String (List (String × String)) :=
  match env.scrape u with
  | .error e => .error e
  | .ok movies =>
    if movies.isEmpty then .error ("no movies found in watchlist for '" ++ u ++ "'")
    else .ok movies

/-- profileErrMsg is the profile-validation error FindCommonMovies returns. -/
def profileErrMsg (u : String) : String :=
  "could not find profile for user: '" ++ u ++ "'. The profile may be private or the username is incorrect"

/-- watchlistErrMsg is the watchlist error FindCommonMovies returns. -/
def watchlistErrMsg (u : String) : String :=
  "could not find a public watchlist for user: '" ++ u ++ "'. The profile may be private, empty, or the username is incorrect"

/-- validateUsers is the sequential avatar-validation loop of
FindCommonMovies (lines 388-395): fail on the first user whose profile
fetch fails. -/
def validateUsers (env : Env) : List String → Except String Unit
  | [] => .ok ()
  | u :: us =>
    match env.avatar u with
    | .error _ => .error (profileErrMsg u)
    | .ok _ => validateUsers env us

/-- fetchWatchlists models the concurrent watchlist fan-out/fan-in (lines
397-433): every fetch runs to completion, and any failure fails the batch
naming the failing user.  The channel's arrival order is unspecified in Go;
it is modelled here as the usernames order. -/
def fetchWatchlists (env : Env) : List String → Except String (List (String × List (String × String)))
  | [] => .ok []
  | u :: us =>
    match GetWatchlist env u with
    | .error _ => .error (watchlistErrMsg u)
    | .ok wl =>
      match fetchWatchlists env us with
      | .error e => .error e
      | .ok rest => .ok ((u, wl) :: rest)

/-- makeMovie builds the one result record of a surviving title (app.go
lines 463-580): user objects from the avatar map, then the success or the
placeholder branch on the GetTMDBDetails outcome. -/
def makeMovie (tmdb : String → Except String TMDBMovie) (avatars : String → String)
    (title : String) (d : AggData) : Movie :=
  let users := d.Users.map (fun u => User.mk u (avatars u))
  match tmdb title with
  | .error _ => buildMovieErr title d.URL users d.Users.length
  | .ok td => buildMovieOk title d.URL users d.Users.length td

/-- processedMovies keeps the titles with at least two contributors and
builds their records (app.go lines 460-582). -/
def processedMovies (env : Env) (counts : List (String × AggData)) : List Movie :=
  (counts.filter (fun td => 2 ≤ td.2.Users.length)).map
    (fun td => makeMovie env.tmdb (avatarOf env) td.1 td.2)

/-- movieLess is the Go sort.Slice less function (app.go lines 585-590):
higher count first, then higher rating. -/
def movieLess (a b : Movie) : Bool :=
  if a.Count ≠ b.Count then decide (b.Count < a.Count) else decide (b.Rating < a.Rating)

/-- movieLe is the sortedness relation sort.Slice guarantees for its less
function: consecutive results never violate less in reverse. -/
def movieLe (a b : Movie) : Prop :=
  ¬ movieLess b a = true

instance : DecidableRel movieLe := fun a b =>
  inferInstanceAs (Decidable (¬ movieLess b a = true))

/-- sortMovies models the final sort.Slice: any Go output is sorted by
movieLe (sort.Slice is not stable, so any sorted permutation is an
admissible outcome); insertion sort is one such implementation. -/
def sortMovies (ms : List Movie) : List Movie :=
  ms.insertionSort movieLe

/-- FindCommonMovies models the Go function of the same name end to end over
the Env oracle. -/
def FindCommonMovies (env : Env) (usernames : List String) : Except String (List Movie) :=
  if usernames.isEmpty then .error "no usernames provided"
  else
    match validateUsers env usernames with
    | .error e => .error e
    | .ok _ =>
      match fetchWatchlists env usernames with
      | .error e => .error e
      | .ok data => .ok (sortMovies (processedMovies env (buildCounts data)))

/-- failsFor states that a username fails one of the three fatal stages the
specification lists: profile validation, watchlist fetch, or an empty final
extracted watchlist. -/
def failsFor (env : Env) (u : String) : Prop :=
  (∃ e, env.avatar u = .error e) ∨ (∃ e, env.scrape u = .error e) ∨ env.scrape u = .ok []

/-- envC1 is a concrete oracle used by witnesses: two users sharing "Dune". -/
def envC1 : Env :=
  { avatar := fun _ => .ok "av"
    scrape := fun u =>
      if u = "alice" then .ok [("Dune", "d1"), ("Arrival", "a1")]
      else if u = "bob" then .ok [("Dune", "d2")]
      else .error "x"
    tmdb := fun _ => .error "nokey" }

/-- dataC1 is the watchlist data envC1 yields for alice and bob. -/
def dataC1 : List (String × List (String × String)) :=
  [("alice", [("Dune", "d1"), ("Arrival", "a1")]), ("bob", [("Dune", "d2")])]

/-- outC1 is the result FindCommonMovies envC1 ["alice", "bob"] computes. -/
def outC1 : List Movie :=
  [buildMovieErr "Dune" "d1" [⟨"alice", "av"⟩, ⟨"bob", "av"⟩] 2]

/-- envC3 is a concrete oracle used by witnesses: three users, "Arrival"
shared by all three and "Dune" by two. -/
def envC3 : Env :=
  { avatar := fun _ => .ok "av"
    scrape := fun u =>
      if u = "alice" then .ok [("Dune", "d1"), ("Arrival", "a1")]
      else if u = "bob" then .ok [("Dune", "d2"), ("Arrival", "a2")]
      else if u = "carol" then .ok [("Arrival", "a3")]
      else .error "x"
    tmdb := fun _ => .error "nokey" }

/-- outC3 is the result FindCommonMovies envC3 ["alice", "bob", "carol"]
computes: "Arrival" (3 contributors) ranked before "Dune" (2). -/
def outC3 : List Movie :=
  [buildMovieErr "Arrival" "a1" [⟨"alice", "av"⟩, ⟨"bob", "av"⟩, ⟨"carol", "av"⟩] 3,
    buildMovieErr "Dune" "d1" [⟨"alice", "av"⟩, ⟨"bob", "av"⟩] 2]

/-- tenvC9 is an empty TMDB oracle, used by the C9 witness. -/
def tenvC9 : String → TMDBEnv := fun _ => ⟨[], []⟩

/-- envC9 is envC1's fetch oracles with metadata resolution going through
GetTMDBDetails under a too-short API key. -/
def envC9 : Env :=
  { avatar := fun _ => .ok "av"
    scrape := fun u =>
      if u = "alice" then .ok [("Dune", "d1"), ("Arrival", "a1")]
      else if u = "bob" then .ok [("Dune", "d2")]
      else .error "x"
    tmdb := fun t => (GetTMDBDetails "short" (tenvC9 t) t).2 }

/-- tdEmptyCredits is a decoded detail payload with zero genres and zero
crew entries, used to probe the director sentinel. -/
def tdEmptyCredits : TMDBMovie :=
  { ID := 7, VoteAverage := 5, PosterPath := "", BackdropPath := "",
    ReleaseDate := "2020-01-01", Runtime := 100, Genres := [], IMDBID := "",
    Overview := "x", CreditsCrew := [], CreditsCast := [], ImagesLogos := [] }

/-- tdC7 is a decoded detail payload with several crew entries (the second
is the first director) and seven cast members. -/
def tdC7 : TMDBMovie :=
  { ID := 8, VoteAverage := 7, PosterPath := "/p.jpg", BackdropPath := "",
    ReleaseDate := "1999-03-31", Runtime := 136, Genres := [⟨"Action"⟩],
    IMDBID := "tt0133093", Overview := "o",
    CreditsCrew := [⟨"P", "Producer", 1⟩, ⟨"Lana", "Director", 2⟩, ⟨"Q", "Director", 3⟩],
    CreditsCast := [⟨"A", 1⟩, ⟨"B", 2⟩, ⟨"C", 3⟩, ⟨"D", 4⟩, ⟨"E", 5⟩, ⟨"F", 6⟩, ⟨"G", 7⟩],
    ImagesLogos := [] }

/-- claimAltTitle is variant (c) as the claim words it: the four fixed
replacements applied character-wise, then trimmed and whitespace-collapsed. -/
def claimAltTitle (t : String) : String :=
  String.mk (collapseSpaces (trimGo (String.mk (t.data.flatMap replaceChar))).data)

/-- claimedCleanTitle is variant (b) read literally from the claim: every
character that is neither alphanumeric nor whitespace is removed. -/
def claimedCleanTitle (t : String) : String :=
  String.mk (t.data.filter (fun c => c.isAlphanum || isSpaceGo c))

/-- claimedVariations is the claim's ordered variant list, with variant (b)
read literally as alphanumeric-or-space. -/
def claimedVariations (t : String) : List String :=
  [t] ++ (if claimedCleanTitle t ≠ t then [claimedCleanTitle t] else [])
    ++ (if claimAltTitle t ≠ t then [claimAltTitle t] else [])

/-- amendedCleanTitle is variant (b) as amended: every character that is
neither a word character (letter, digit or underscore) nor whitespace is
removed. -/
def amendedCleanTitle (t : String) : String :=
  String.mk (t.data.filter (fun c => (c.isAlphanum || c = '_') || isSpaceGo c))

/-- amendedVariations is the amended claim's ordered variant list. -/
def amendedVariations (t : String) : List String :=
  [t] ++ (if amendedCleanTitle t ≠ t then [amendedCleanTitle t] else [])
    ++ (if claimAltTitle t ≠ t then [claimAltTitle t] else [])

/-! ### Lemmas about the intersection step -/

theorem lookupTitle_updateTitle (m : List (String × AggData)) (t t' user url : String) :
    lookupTitle (updateTitle m t user url) t' =
      if t = t' then
        match lookupTitle m t with
        | some d => some ⟨d.Users ++ [user], d.URL⟩
        | none => some ⟨[user], url⟩
      else lookupTitle m t' := by
  induction m with
  | nil =>
    by_cases h : t = t' <;> simp [updateTitle, lookupTitle, h]
  | cons hd tl ih =>
    obtain ⟨t0, d0⟩ := hd
    by_cases h0 : t0 = t
    · subst h0
      by_cases h : t0 = t' <;> simp [updateTitle, lookupTitle, h]
    · have hne : t ≠ t0 := fun hh => h0 hh.symm
      by_cases h : t0 = t'
      · subst h
        simp [updateTitle, h0, lookupTitle, hne]
      · simp [updateTitle, h0, lookupTitle, h, ih]

theorem lookupTitle_processUser_of_not_mem (user : String) (wl : List (String × String)) (t : String)
    (h : ∀ e ∈ wl, e.1 ≠ t) (m : List (String × AggData)) :
    lookupTitle (processUser m user wl) t = lookupTitle m t := by
  induction wl generalizing m with
  | nil => rfl
  | cons e wl ih =>
    have he : e.1 ≠ t := h e (List.mem_cons_self e wl)
    have hrest : ∀ e2 ∈ wl, e2.1 ≠ t := fun e2 he2 => h e2 (List.mem_cons_of_mem e he2)
    show lookupTitle (processUser (updateTitle m e.1 user e.2) user wl) t = _
    rw [ih hrest, lookupTitle_updateTitle, if_neg he]

theorem lookupTitle_processUser (user : String) (wl : List (String × String)) (t : String)
    (hnd : (wl.map Prod.fst).Nodup) (m : List (String × AggData)) :
    lookupTitle (processUser m user wl) t =
      match wl.find? (fun e => decide (e.1 = t)) with
      | none => lookupTitle m t
      | some e =>
        match lookupTitle m t with
        | some d => some ⟨d.Users ++ [user], d.URL⟩
        | none => some ⟨[user], e.2⟩ := by
  induction wl generalizing m with
  | nil => rfl
  | cons e wl ih =>
    have hnd2 : (wl.map Prod.fst).Nodup := (List.nodup_cons.mp hnd).2
    have hni : e.1 ∉ wl.map Prod.fst := (List.nodup_cons.mp hnd).1
    show lookupTitle (processUser (updateTitle m e.1 user e.2) user wl) t = _
    by_cases h : e.1 = t
    · subst h
      have hrest : ∀ e2 ∈ wl, e2.1 ≠ e.1 := by
        intro e2 he2 hc
        exact hni (hc ▸ List.mem_map_of_mem Prod.fst he2)
      rw [lookupTitle_processUser_of_not_mem user wl e.1 hrest,
        lookupTitle_updateTitle, if_pos rfl,
        List.find?_cons_of_pos wl (by simp)]
    · rw [ih hnd2]
      have hL : lookupTitle (updateTitle m e.1 user e.2) t = lookupTitle m t := by
        rw [lookupTitle_updateTitle, if_neg h]
      rw [List.find?_cons_of_neg wl (by simpa using h), hL]

theorem contributors_cons (t : String) (uw : String × List (String × String))
    (data : List (String × List (String × String))) :
    contributors t (uw :: data) =
      (if uw.2.any (fun e => e.1 = t) then [uw.1] else []) ++ contributors t data := by
  by_cases h : uw.2.any (fun e => e.1 = t) <;> simp [contributors, List.filter_cons, h]

theorem lookupTitle_foldl (data : List (String × List (String × String)))
    (hwl : ∀ uw ∈ data, (uw.2.map Prod.fst).Nodup) (t : String) (m : List (String × AggData)) :
    lookupTitle (data.foldl (fun acc uw => processUser acc uw.1 uw.2) m) t =
      match lookupTitle m t with
      | some d => some ⟨d.Users ++ contributors t data, d.URL⟩
      | none =>
        match firstHit t data with
        | none => none
        | some url => some ⟨contributors t data, url⟩ := by
  induction data generalizing m with
  | nil =>
    simp only [List.foldl_nil, contributors, List.filter_nil, List.map_nil, firstHit]
    match h : lookupTitle m t with
    | some d => simp
    | none => simp
  | cons uw data ih =>
    have hwl1 : (uw.2.map Prod.fst).Nodup := hwl uw (List.mem_cons_self uw data)
    have hwl2 : ∀ uw2 ∈ data, (uw2.2.map Prod.fst).Nodup :=
      fun uw2 h2 => hwl uw2 (List.mem_cons_of_mem uw h2)
    rw [List.foldl_cons, ih hwl2, lookupTitle_processUser uw.1 uw.2 t hwl1 m,
      contributors_cons]
    show _ = _
    match hf : uw.2.find? (fun e => decide (e.1 = t)) with
    | some e =>
      have hany : uw.2.any (fun e => e.1 = t) = true := by
        rcases List.find?_some hf, List.mem_of_find?_eq_some hf with ⟨h1, h2⟩
        exact List.any_eq_true.mpr ⟨e, h2, h1⟩
      rw [hany]
      show _ = _
      match hm : lookupTitle m t with
      | some d => simp [firstHit, hf]
      | none => simp [firstHit, hf]
    | none =>
      have hany : uw.2.any (fun e => e.1 = t) = false := by
        rw [List.any_eq_false]
        intro e he
        have := List.find?_eq_none.mp hf e he
        simpa using this
      rw [hany]
      show _ = _
      match hm : lookupTitle m t with
      | some d => simp [firstHit, hf]
      | none => simp [firstHit, hf]

theorem lookupTitle_buildCounts (data : List (String × List (String × String)))
    (hwl : ∀ uw ∈ data, (uw.2.map Prod.fst).Nodup) (t : String) :
    lookupTitle (buildCounts data) t =
      match firstHit t data with
      | none => none
      | some url => some ⟨contributors t data, url⟩ := by
  have := lookupTitle_foldl data hwl t []
  simpa [buildCounts, lookupTitle] using this

theorem firstHit_eq_none_iff (t : String) (data : List (String × List (String × String))) :
    firstHit t data = none ↔ contributors t data = [] := by
  induction data with
  | nil => simp [firstHit, contributors]
  | cons uw data ih =>
    rw [contributors_cons]
    show (match uw.2.find? (fun e => decide (e.1 = t)) with
      | some e => some e.2
      | none => firstHit t data) = none ↔ _
    match hf : uw.2.find? (fun e => decide (e.1 = t)) with
    | some e =>
      have hany : uw.2.any (fun e => e.1 = t) = true := by
        rcases List.find?_some hf, List.mem_of_find?_eq_some hf with ⟨h1, h2⟩
        exact List.any_eq_true.mpr ⟨e, h2, h1⟩
      simp [hany, hf]
    | none =>
      have hany : uw.2.any (fun e => e.1 = t) = false := by
        rw [List.any_eq_false]
        intro e he
        have := List.find?_eq_none.mp hf e he
        simpa using this
      simp [hany, hf, ih]

theorem keys_updateTitle (m : List (String × AggData)) (t user url : String) :
    (updateTitle m t user url).map Prod.fst =
      if t ∈ m.map Prod.fst then m.map Prod.fst else m.map Prod.fst ++ [t] := by
  induction m with
  | nil => simp [updateTitle]
  | cons hd tl ih =>
    obtain ⟨t0, d0⟩ := hd
    by_cases h0 : t0 = t
    · subst h0
      simp [updateTitle]
    · have hne : t ≠ t0 := fun hh => h0 hh.symm
      by_cases hm : t ∈ tl.map Prod.fst <;>
        simp [updateTitle, h0, hne, hm, ih]

theorem nodup_keys_updateTitle (m : List (String × AggData)) (t user url : String)
    (h : (m.map Prod.fst).Nodup) : ((updateTitle m t user url).map Prod.fst).Nodup := by
  rw [keys_updateTitle]
  by_cases hm : t ∈ m.map Prod.fst
  · simpa [hm]
  · simpa [hm, List.nodup_append] using h

theorem nodup_keys_processUser (m : List (String × AggData)) (user : String)
    (wl : List (String × String)) (h : (m.map Prod.fst).Nodup) :
    ((processUser m user wl).map Prod.fst).Nodup := by
  induction wl generalizing m with
  | nil => exact h
  | cons e wl ih => exact ih _ (nodup_keys_updateTitle m e.1 user e.2 h)

theorem nodup_keys_buildCounts (data : List (String × List (String × String))) :
    ((buildCounts data).map Prod.fst).Nodup := by
  have general : ∀ (m : List (String × AggData)), (m.map Prod.fst).Nodup →
      (((data.foldl (fun acc uw => processUser acc uw.1 uw.2) m)).map Prod.fst).Nodup := by
    induction data with
    | nil => intro m h; exact h
    | cons uw data ih =>
      intro m h
      exact ih _ (nodup_keys_processUser m uw.1 uw.2 h)
  exact general [] (by simp)

theorem lookupTitle_eq_some_of_mem (m : List (String × AggData)) (t : String) (d : AggData)
    (hk : (m.map Prod.fst).Nodup) (h : (t, d) ∈ m) : lookupTitle m t = some d := by
  induction m with
  | nil => cases h
  | cons hd tl ih =>
    obtain ⟨t0, d0⟩ := hd
    rcases List.mem_cons.mp h with heq | htl
    · cases heq
      simp [lookupTitle]
    · have hk2 : t0 ∉ tl.map Prod.fst ∧ (tl.map Prod.fst).Nodup := by
        simpa using hk
      have hne : t0 ≠ t := by
        intro hh
        apply hk2.1
        rw [hh]
        exact List.mem_map_of_mem Prod.fst htl
      simp [lookupTitle, hne, ih hk2.2 htl]

theorem mem_of_lookupTitle_eq_some (m : List (String × AggData)) (t : String) (d : AggData)
    (h : lookupTitle m t = some d) : (t, d) ∈ m := by
  induction m with
  | nil => simp [lookupTitle] at h
  | cons hd tl ih =>
    obtain ⟨t0, d0⟩ := hd
    by_cases h0 : t0 = t
    · subst h0
      simp [lookupTitle] at h
      simp [h]
    · simp [lookupTitle, h0] at h
      exact List.mem_cons_of_mem _ (ih h)

theorem countP_key_of_not_mem (m : List (String × AggData)) (t : String) (q : AggData → Bool)
    (h : t ∉ m.map Prod.fst) :
    m.countP (fun td => decide (td.1 = t) && q td.2) = 0 := by
  induction m with
  | nil => rfl
  | cons hd tl ih =>
    have h1 : hd.1 ≠ t := by
      intro hh
      exact h (by simp [hh.symm])
    have h2 : t ∉ tl.map Prod.fst := fun hm => h (List.mem_cons_of_mem _ hm)
    rw [List.countP_cons]
    simp [h1, ih h2]

theorem countP_key_nodup (m : List (String × AggData)) (t : String) (q : AggData → Bool)
    (hk : (m.map Prod.fst).Nodup) :
    m.countP (fun td => decide (td.1 = t) && q td.2) =
      match lookupTitle m t with
      | none => 0
      | some d => if q d then 1 else 0 := by
  induction m with
  | nil => rfl
  | cons hd tl ih =>
    obtain ⟨t0, d0⟩ := hd
    have hk2 := List.nodup_cons.mp hk
    by_cases h0 : t0 = t
    · subst h0
      rw [List.countP_cons, countP_key_of_not_mem tl t0 q hk2.1]
      have hl : lookupTitle ((t0, d0) :: tl) t0 = some d0 := by simp [lookupTitle]
      rw [hl]
      simp
    · rw [List.countP_cons, ih hk2.2]
      simp [lookupTitle, h0]

/-! ### Lemmas about result building, the pipeline and the sort -/

theorem makeMovie_Title (tmdb : String → Except String TMDBMovie) (avatars : String → String)
    (title : String) (d : AggData) : (makeMovie tmdb avatars title d).Title = title := by
  unfold makeMovie
  match tmdb title with
  | .error e => rfl
  | .ok td => rfl

theorem makeMovie_Count (tmdb : String → Except String TMDBMovie) (avatars : String → String)
    (title : String) (d : AggData) : (makeMovie tmdb avatars title d).Count = d.Users.length := by
  unfold makeMovie
  match tmdb title with
  | .error e => rfl
  | .ok td => rfl

theorem makeMovie_of_error (tmdb : String → Except String TMDBMovie) (avatars : String → String)
    (title : String) (d : AggData) (e : String) (h : tmdb title = .error e) :
    makeMovie tmdb avatars title d =
      buildMovieErr title d.URL (d.Users.map (fun u => User.mk u (avatars u))) d.Users.length := by
  unfold makeMovie
  rw [h]

theorem countP_processedMovies (env : Env) (counts : List (String × AggData)) (t : String) :
    (processedMovies env counts).countP (fun mv => decide (mv.Title = t)) =
      counts.countP (fun td => decide (td.1 = t) && decide (2 ≤ td.2.Users.length)) := by
  unfold processedMovies
  rw [List.countP_map, List.countP_filter]
  apply List.countP_congr
  intro td _
  simp [Function.comp, makeMovie_Title, Bool.and_comm]

theorem mem_processedMovies (env : Env) (counts : List (String × AggData)) (mv : Movie) :
    mv ∈ processedMovies env counts ↔
      ∃ td ∈ counts, 2 ≤ td.2.Users.length ∧
        mv = makeMovie env.tmdb (avatarOf env) td.1 td.2 := by
  unfold processedMovies
  constructor
  · intro h
    obtain ⟨td, htd, heq⟩ := List.mem_map.mp h
    have hf := List.mem_filter.mp htd
    exact ⟨td, hf.1, by simpa using hf.2, heq.symm⟩
  · rintro ⟨td, htd, hlen, heq⟩
    exact List.mem_map.mpr ⟨td, List.mem_filter.mpr ⟨htd, by simpa using hlen⟩, heq.symm⟩

theorem FindCommonMovies_ok_iff (env : Env) (usernames : List String) (out : List Movie) :
    FindCommonMovies env usernames = .ok out ↔
      usernames ≠ [] ∧ validateUsers env usernames = .ok () ∧
      ∃ data, fetchWatchlists env usernames = .ok data ∧
        out = sortMovies (processedMovies env (buildCounts data)) := by
  unfold FindCommonMovies
  by_cases he : usernames.isEmpty
  · have : usernames = [] := List.isEmpty_iff.mp he
    simp [he, this]
  · have hne : usernames ≠ [] := by
      intro hh
      rw [hh] at he
      exact he rfl
    rw [if_neg he]
    match hv : validateUsers env usernames with
    | .error e => simp [hv, hne]
    | .ok u =>
      cases u
      match hf : fetchWatchlists env usernames with
      | .error e => simp [hv, hf, hne]
      | .ok data =>
        constructor
        · intro h
          injection h with h
          exact ⟨hne, rfl, data, rfl, h.symm⟩
        · rintro ⟨h1, h2, data2, hd2, hout⟩
          injection hd2 with hd2
          rw [hout, ← hd2]

theorem fetchWatchlists_ok_scrape (env : Env) (us : List String)
    (data : List (String × List (String × String)))
    (h : fetchWatchlists env us = .ok data) :
    ∀ uw ∈ data, env.scrape uw.1 = .ok uw.2 := by
  induction us generalizing data with
  | nil =>
    unfold fetchWatchlists at h
    injection h with h
    subst h
    intro uw huw
    cases huw
  | cons u us ih =>
    unfold fetchWatchlists at h
    match hw : GetWatchlist env u with
    | .error e => rw [hw] at h; cases h
    | .ok wl =>
      rw [hw] at h
      match hr : fetchWatchlists env us with
      | .error e => rw [hr] at h; cases h
      | .ok rest =>
        rw [hr] at h
        injection h with h
        subst h
        intro uw huw
        rcases List.mem_cons.mp huw with heq | htl
        · subst heq
          match hs : env.scrape u with
          | .error e => simp only [GetWatchlist, hs] at hw; cases hw
          | .ok movies =>
            simp only [GetWatchlist, hs] at hw
            by_cases hemp : movies.isEmpty
            · simp [hemp] at hw
            · simp only [hemp, if_false, Bool.false_eq_true] at hw
              injection hw with hw
              exact congrArg Except.ok hw
        · exact ih rest hr uw htl

theorem movieLe_iff (a b : Movie) :
    movieLe a b ↔ b.Count < a.Count ∨ (a.Count = b.Count ∧ b.Rating ≤ a.Rating) := by
  unfold movieLe movieLess
  by_cases h : b.Count = a.Count
  · rw [if_neg (not_not_intro h)]
    simp only [decide_eq_true_eq, not_lt]
    constructor
    · intro hle
      exact Or.inr ⟨h.symm, hle⟩
    · rintro (hlt | ⟨heq2, hle⟩)
      · omega
      · exact hle
  · rw [if_pos h]
    simp only [decide_eq_true_eq, not_lt]
    constructor
    · intro hge
      left
      omega
    · rintro (hlt | ⟨heq2, _⟩)
      · omega
      · omega

theorem movieLe_total2 : ∀ a b : Movie, movieLe a b ∨ movieLe b a := by
  intro a b
  rw [movieLe_iff, movieLe_iff]
  rcases Nat.lt_trichotomy a.Count b.Count with h | h | h
  · right; left; exact h
  · rcases le_total a.Rating b.Rating with hr | hr
    · right; right; exact ⟨h.symm, hr⟩
    · left; right; exact ⟨h, hr⟩
  · left; left; exact h

theorem movieLe_trans2 : ∀ a b c : Movie, movieLe a b → movieLe b c → movieLe a c := by
  intro a b c hab hbc
  rw [movieLe_iff] at hab hbc ⊢
  rcases hab with h1 | ⟨h1, r1⟩ <;> rcases hbc with h2 | ⟨h2, r2⟩
  · left; omega
  · left; omega
  · left; omega
  · right; exact ⟨by omega, le_trans r2 r1⟩

theorem sortMovies_perm (ms : List Movie) : (sortMovies ms).Perm ms :=
  List.perm_insertionSort movieLe ms

theorem sortMovies_sorted (ms : List Movie) : (sortMovies ms).Pairwise movieLe := by
  haveI : IsTotal Movie movieLe := ⟨movieLe_total2⟩
  haveI : IsTrans Movie movieLe := ⟨movieLe_trans2⟩
  exact List.sorted_insertionSort movieLe ms

/-! ### Lemmas about the fatal error paths -/

theorem validateUsers_ok_of_no_failure (env : Env) (us : List String)
    (h : ∀ u ∈ us, ¬∃ e, env.avatar u = .error e) :
    validateUsers env us = .ok () := by
  induction us with
  | nil => rfl
  | cons u us ih =>
    match ha : env.avatar u with
    | .error e => exact absurd ⟨e, ha⟩ (h u (List.mem_cons_self u us))
    | .ok a =>
      show (match env.avatar u with
        | .error _ => Except.error (profileErrMsg u)
        | .ok _ => validateUsers env us) = Except.ok ()
      rw [ha]
      exact ih (fun u2 h2 => h u2 (List.mem_cons_of_mem u h2))

theorem validateUsers_error_names_user (env : Env) (us : List String)
    (h : ∃ u ∈ us, ∃ e, env.avatar u = .error e) :
    ∃ u ∈ us, (∃ e, env.avatar u = .error e) ∧
      validateUsers env us = .error (profileErrMsg u) := by
  induction us with
  | nil => obtain ⟨u, hu, _⟩ := h; cases hu
  | cons u us ih =>
    match ha : env.avatar u with
    | .error e =>
      refine ⟨u, List.mem_cons_self u us, ⟨e, ha⟩, ?_⟩
      show (match env.avatar u with
        | .error _ => Except.error (profileErrMsg u)
        | .ok _ => validateUsers env us) = _
      rw [ha]
    | .ok a =>
      have h2 : ∃ u2 ∈ us, ∃ e, env.avatar u2 = .error e := by
        obtain ⟨u0, hu0, e0, he0⟩ := h
        rcases List.mem_cons.mp hu0 with heq | htl
        · subst heq
          rw [ha] at he0
          cases he0
        · exact ⟨u0, htl, e0, he0⟩
      obtain ⟨u1, hu1, hfail, hval⟩ := ih h2
      refine ⟨u1, List.mem_cons_of_mem u hu1, hfail, ?_⟩
      show (match env.avatar u with
        | .error _ => Except.error (profileErrMsg u)
        | .ok _ => validateUsers env us) = _
      rw [ha]
      exact hval

theorem GetWatchlist_error_iff (env : Env) (u : String) :
    (∃ e, GetWatchlist env u = .error e) ↔
      (∃ e, env.scrape u = .error e) ∨ env.scrape u = .ok [] := by
  unfold GetWatchlist
  match hs : env.scrape u with
  | .error e => simp [hs]
  | .ok movies =>
    by_cases hemp : movies.isEmpty
    · have hnil : movies = [] := List.isEmpty_iff.mp hemp
      subst hnil
      simp
    · have hnil : movies ≠ [] := by
        intro hh
        rw [hh] at hemp
        exact hemp rfl
      simp [hemp, hs, hnil]

theorem fetchWatchlists_error_names_user (env : Env) (us : List String)
    (h : ∃ u ∈ us, ∃ e, GetWatchlist env u = .error e) :
    ∃ u ∈ us, (∃ e, GetWatchlist env u = .error e) ∧
      fetchWatchlists env us = .error (watchlistErrMsg u) := by
  induction us with
  | nil => obtain ⟨u, hu, _⟩ := h; cases hu
  | cons u us ih =>
    match hw : GetWatchlist env u with
    | .error e =>
      refine ⟨u, List.mem_cons_self u us, ⟨e, hw⟩, ?_⟩
      show (match GetWatchlist env u with
        | .error _ => Except.error (watchlistErrMsg u)
        | .ok wl => match fetchWatchlists env us with
          | .error e2 => Except.error e2
          | .ok rest => Except.ok ((u, wl) :: rest)) = _
      rw [hw]
    | .ok wl =>
      have h2 : ∃ u2 ∈ us, ∃ e, GetWatchlist env u2 = .error e := by
        obtain ⟨u0, hu0, e0, he0⟩ := h
        rcases List.mem_cons.mp hu0 with heq | htl
        · subst heq
          rw [hw] at he0
          cases he0
        · exact ⟨u0, htl, e0, he0⟩
      obtain ⟨u1, hu1, hfail, hfetch⟩ := ih h2
      refine ⟨u1, List.mem_cons_of_mem u hu1, hfail, ?_⟩
      show (match GetWatchlist env u with
        | .error _ => Except.error (watchlistErrMsg u)
        | .ok wl2 => match fetchWatchlists env us with
          | .error e2 => Except.error e2
          | .ok rest => Except.ok ((u, wl2) :: rest)) = _
      rw [hw, hfetch]

/-! ### The claims -/

/-- Claim C10: FindCommonMovies called with an empty sequence of usernames
returns the error "no usernames provided" and no result sequence, rather
than an empty success result. -/
theorem C10_no_usernames (env : Env) :
    FindCommonMovies env [] = .error "no usernames provided" := rfl

/-- Claim C2: if any username fails profile validation, watchlist fetching,
or has an empty final extracted watchlist, then FindCommonMovies returns an
error naming a failing username (the message embeds it), and no ResultMovie
is returned (the result is the error constructor, carrying no movies).
Multiple simultaneous failures surface first-error-wins, so the named user
is one of the failing ones. -/
theorem C2_user_failure_aborts (env : Env) (usernames : List String)
    (h : ∃ u ∈ usernames, failsFor env u) :
    ∃ u ∈ usernames, failsFor env u ∧
      (FindCommonMovies env usernames = .error (profileErrMsg u) ∨
        FindCommonMovies env usernames = .error (watchlistErrMsg u)) := by
  have hne : ¬usernames.isEmpty := by
    obtain ⟨u, hu, _⟩ := h
    intro hh
    rw [List.isEmpty_iff.mp hh] at hu
    cases hu
  by_cases hA : ∃ u ∈ usernames, ∃ e, env.avatar u = .error e
  · obtain ⟨u, hu, hfail, hval⟩ := validateUsers_error_names_user env usernames hA
    refine ⟨u, hu, Or.inl hfail, Or.inl ?_⟩
    unfold FindCommonMovies
    rw [if_neg hne, hval]
  · have hB : ∃ u ∈ usernames, ∃ e, GetWatchlist env u = .error e := by
      obtain ⟨u0, hu0, hf0⟩ := h
      rcases hf0 with ha | hrest
      · exact absurd ⟨u0, hu0, ha⟩ hA
      · exact ⟨u0, hu0, (GetWatchlist_error_iff env u0).mpr hrest⟩
    obtain ⟨u1, hu1, hfail1, hfetch⟩ := fetchWatchlists_error_names_user env usernames hB
    have hval : validateUsers env usernames = .ok () := by
      apply validateUsers_ok_of_no_failure
      intro u2 hu2 hex
      exact hA ⟨u2, hu2, hex⟩
    refine ⟨u1, hu1, Or.inr ((GetWatchlist_error_iff env u1).mp hfail1), Or.inr ?_⟩
    unfold FindCommonMovies
    rw [if_neg hne, hval, hfetch]

/-- Witness for C2 at a concrete input: the user "bob" has a watchlist
scrape failure, so the call fails naming him. -/
theorem C2_user_failure_aborts_witness :
    ∃ u ∈ ["alice", "bob"],
      failsFor
        { avatar := fun _ => .ok "av"
          scrape := fun u => if u = "alice" then .ok [("Dune", "d")] else .error "boom"
          tmdb := fun _ => .error "no key" } u ∧
      (FindCommonMovies
          { avatar := fun _ => .ok "av"
            scrape := fun u => if u = "alice" then .ok [("Dune", "d")] else .error "boom"
            tmdb := fun _ => .error "no key" } ["alice", "bob"] =
          .error (profileErrMsg u) ∨
        FindCommonMovies
          { avatar := fun _ => .ok "av"
            scrape := fun u => if u = "alice" then .ok [("Dune", "d")] else .error "boom"
            tmdb := fun _ => .error "no key" } ["alice", "bob"] =
          .error (watchlistErrMsg u)) :=
  C2_user_failure_aborts _ _ ⟨"bob", by decide, Or.inr (Or.inl ⟨"boom", rfl⟩)⟩

/-- Claim C1: over any per-user watchlist map (distinct usernames, and
per-user maps, so per-user title lists without duplicates), a title with
fewer than 2 distinct contributing usernames never appears in the output of
FindCommonMovies, and a title with at least 2 distinct contributors yields
exactly one ResultMovie, whose Count is the number of distinct
contributors. -/
theorem C1_threshold_and_count (env : Env) (usernames : List String) (out : List Movie)
    (data : List (String × List (String × String)))
    (hok : FindCommonMovies env usernames = .ok out)
    (hdata : fetchWatchlists env usernames = .ok data)
    (hus : usernames.Nodup)
    (hwl : ∀ uw ∈ data, (uw.2.map Prod.fst).Nodup)
    (t : String) :
    ((contributors t data).length < 2 → ∀ m ∈ out, m.Title ≠ t) ∧
    (2 ≤ (contributors t data).length →
      out.countP (fun m => decide (m.Title = t)) = 1 ∧
      ∀ m ∈ out, m.Title = t → m.Count = (contributors t data).length) := by
  obtain ⟨hne, hval, data2, hdata2, hout⟩ := (FindCommonMovies_ok_iff env usernames out).mp hok
  rw [hdata] at hdata2
  injection hdata2 with hdd
  subst hdd
  have hkeys := nodup_keys_buildCounts data
  have hlook := lookupTitle_buildCounts data hwl t
  have hperm := sortMovies_perm (processedMovies env (buildCounts data))
  have hcount : out.countP (fun m => decide (m.Title = t)) =
      (buildCounts data).countP (fun td => decide (td.1 = t) && decide (2 ≤ td.2.Users.length)) := by
    rw [hout, hperm.countP_eq, countP_processedMovies]
  have hcount2 : out.countP (fun m => decide (m.Title = t)) =
      match firstHit t data with
      | none => 0
      | some url => if 2 ≤ (contributors t data).length then 1 else 0 := by
    rw [hcount]
    have hkn := countP_key_nodup (buildCounts data) t
      (fun d => decide (2 ≤ d.Users.length)) hkeys
    rw [hlook] at hkn
    match hf : firstHit t data with
    | none => rw [hf] at hkn; simpa using hkn
    | some url => rw [hf] at hkn; simpa using hkn
  have hmemcount : ∀ m ∈ out, m.Title = t → m.Count = (contributors t data).length := by
    intro m hm hmt
    have hm2 : m ∈ processedMovies env (buildCounts data) := by
      rw [hout] at hm
      exact hperm.mem_iff.mp hm
    obtain ⟨td, htd, hlen, heq⟩ := (mem_processedMovies env (buildCounts data) m).mp hm2
    have htitle : td.1 = t := by
      rw [heq] at hmt
      rw [makeMovie_Title] at hmt
      exact hmt
    have hsome : lookupTitle (buildCounts data) td.1 = some td.2 :=
      lookupTitle_eq_some_of_mem _ td.1 td.2 hkeys htd
    rw [htitle, hlook] at hsome
    have husers : td.2.Users = contributors t data := by
      match hf : firstHit t data with
      | none => rw [hf] at hsome; cases hsome
      | some url =>
        rw [hf] at hsome
        injection hsome with hsome
        rw [← hsome]
    rw [heq, makeMovie_Count, husers]
  constructor
  · intro hlt m hm hmt
    have hzero : out.countP (fun m => decide (m.Title = t)) = 0 := by
      rw [hcount2]
      match hf : firstHit t data with
      | none => rfl
      | some url =>
        have hn : ¬ 2 ≤ (contributors t data).length := by omega
        simp [hn]
    have := List.countP_eq_zero.mp hzero m hm
    simp [hmt] at this
  · intro hge
    refine ⟨?_, hmemcount⟩
    rw [hcount2]
    match hf : firstHit t data with
    | none =>
      have hc : contributors t data = [] := (firstHit_eq_none_iff t data).mp hf
      rw [hc] at hge
      simp at hge
    | some url => simp [hge]

/-- Witness for C1 at a concrete input: alice and bob share "Dune"
(2 contributors), so exactly one record with Count 2 appears. -/
theorem C1_threshold_and_count_witness :
    ((contributors "Dune" dataC1).length < 2 → ∀ m ∈ outC1, m.Title ≠ "Dune") ∧
    (2 ≤ (contributors "Dune" dataC1).length →
      outC1.countP (fun m => decide (m.Title = "Dune")) = 1 ∧
      ∀ m ∈ outC1, m.Title = "Dune" → m.Count = (contributors "Dune" dataC1).length) :=
  C1_threshold_and_count envC1 ["alice", "bob"] outC1 dataC1
    (by decide) (by decide) (by decide) (by decide) "Dune"

/-- Claim C3: the output of FindCommonMovies is sorted by descending
contributor count, ties broken by descending rating: for i < j either
Count i > Count j, or counts are equal and Rating i >= Rating j. -/
theorem C3_sort_invariant (env : Env) (usernames : List String) (out : List Movie)
    (hok : FindCommonMovies env usernames = .ok out)
    (i j : Nat) (hi : i < out.length) (hj : j < out.length) (hij : i < j) :
    (out.get ⟨j, hj⟩).Count < (out.get ⟨i, hi⟩).Count ∨
      ((out.get ⟨i, hi⟩).Count = (out.get ⟨j, hj⟩).Count ∧
        (out.get ⟨j, hj⟩).Rating ≤ (out.get ⟨i, hi⟩).Rating) := by
  obtain ⟨hne, hval, data, hdata, hout⟩ := (FindCommonMovies_ok_iff env usernames out).mp hok
  have hsorted : out.Pairwise movieLe := by
    rw [hout]
    exact sortMovies_sorted _
  have hle := List.pairwise_iff_get.mp hsorted ⟨i, hi⟩ ⟨j, hj⟩ hij
  exact (movieLe_iff _ _).mp hle

/-- Witness for C3 at a concrete input: "Arrival" (3 contributors) is
ranked before "Dune" (2 contributors). -/
theorem C3_sort_invariant_witness :
    (outC3.get ⟨1, by decide⟩).Count < (outC3.get ⟨0, by decide⟩).Count ∨
      ((outC3.get ⟨0, by decide⟩).Count = (outC3.get ⟨1, by decide⟩).Count ∧
        (outC3.get ⟨1, by decide⟩).Rating ≤ (outC3.get ⟨0, by decide⟩).Rating) :=
  C3_sort_invariant envC3 ["alice", "bob", "carol"] outC3 (by decide) 0 1
    (by decide) (by decide) (by decide)

/-- Claim C8: every aggregation the intersection step produces has a
duplicate-free contributors sequence equal to the distinct users whose
watchlist contained the title (in arrival order), and its detail link is
the first-seen link, never overwritten by later duplicates. -/
theorem C8_aggregation_invariants (data : List (String × List (String × String)))
    (hkeys : (data.map Prod.fst).Nodup)
    (hwl : ∀ uw ∈ data, (uw.2.map Prod.fst).Nodup)
    (t : String) (d : AggData) (hmem : (t, d) ∈ buildCounts data) :
    d.Users = contributors t data ∧ d.Users.Nodup ∧
      d.Users.length = (contributors t data).length ∧
      firstHit t data = some d.URL := by
  have hk := nodup_keys_buildCounts data
  have hl := lookupTitle_eq_some_of_mem _ t d hk hmem
  rw [lookupTitle_buildCounts data hwl t] at hl
  match hf : firstHit t data with
  | none => rw [hf] at hl; cases hl
  | some url =>
    rw [hf] at hl
    injection hl with hl
    have husers : d.Users = contributors t data := by rw [← hl]
    have hurl : d.URL = url := by rw [← hl]
    have hnd : (contributors t data).Nodup := by
      have hsub : List.Sublist (contributors t data) (data.map Prod.fst) :=
        List.Sublist.map Prod.fst (List.filter_sublist data)
      exact hkeys.sublist hsub
    refine ⟨husers, husers ▸ hnd, by rw [husers], ?_⟩
    rw [hurl]

/-- Witness for C8 at a concrete input: the "Dune" aggregation of dataC1
keeps alice's first-seen URL and both contributors. -/
theorem C8_aggregation_invariants_witness :
    (AggData.mk ["alice", "bob"] "d1").Users = contributors "Dune" dataC1 ∧
      (AggData.mk ["alice", "bob"] "d1").Users.Nodup ∧
      (AggData.mk ["alice", "bob"] "d1").Users.length = (contributors "Dune" dataC1).length ∧
      firstHit "Dune" dataC1 = some (AggData.mk ["alice", "bob"] "d1").URL :=
  C8_aggregation_invariants dataC1 (by decide) (by decide) "Dune"
    (AggData.mk ["alice", "bob"] "d1") (by decide)

/-- Claim C6: a title with at least 2 contributors yields a complete
ResultMovie even when metadata resolution fails — the request still
succeeds, the title is not dropped, and the record carries the
deterministic placeholder values. -/
theorem C6_resolution_failure_recovered (env : Env) (usernames : List String)
    (data : List (String × List (String × String)))
    (hne : usernames ≠ [])
    (hval : validateUsers env usernames = .ok ())
    (hdata : fetchWatchlists env usernames = .ok data)
    (hwl : ∀ uw ∈ data, (uw.2.map Prod.fst).Nodup) :
    ∃ out, FindCommonMovies env usernames = .ok out ∧
      ∀ t, 2 ≤ (contributors t data).length →
        ∀ e, env.tmdb t = .error e →
          ∃ m ∈ out, m.Title = t ∧ m.Count = (contributors t data).length ∧
            m.Rating = 0 ∧ m.FormattedRating = "N/A" ∧
            m.Overview = "No overview available." ∧
            m.Runtime = 0 ∧ m.FormattedRuntime = "" ∧
            m.PosterURL = noPosterURL ∧ m.BackdropURL = noPosterURL ∧
            m.LogoURL = "" ∧ m.Genres = [] ∧ m.Cast = [] := by
  refine ⟨sortMovies (processedMovies env (buildCounts data)), ?_, ?_⟩
  · exact (FindCommonMovies_ok_iff env usernames _).mpr ⟨hne, hval, data, hdata, rfl⟩
  · intro t hge e htmdb
    have hlook := lookupTitle_buildCounts data hwl t
    match hf : firstHit t data with
    | none =>
      have hc := (firstHit_eq_none_iff t data).mp hf
      rw [hc] at hge
      simp at hge
    | some url =>
      rw [hf] at hlook
      have hmem : (t, AggData.mk (contributors t data) url) ∈ buildCounts data :=
        mem_of_lookupTitle_eq_some _ _ _ hlook
      have hm : makeMovie env.tmdb (avatarOf env) t (AggData.mk (contributors t data) url) ∈
          processedMovies env (buildCounts data) :=
        (mem_processedMovies _ _ _).mpr
          ⟨(t, AggData.mk (contributors t data) url), hmem, by simpa using hge, rfl⟩
      refine ⟨_, (sortMovies_perm _).mem_iff.mpr hm, ?_⟩
      rw [makeMovie_of_error env.tmdb (avatarOf env) t _ e htmdb]
      exact ⟨rfl, rfl, rfl, rfl, rfl, rfl, rfl, rfl, rfl, rfl, rfl, rfl⟩

/-- Witness for C6 at a concrete input: envC1 resolves no metadata (tmdb
always errors), yet "Dune" still yields a full placeholder record. -/
theorem C6_resolution_failure_recovered_witness :
    ∃ out, FindCommonMovies envC1 ["alice", "bob"] = .ok out ∧
      ∀ t, 2 ≤ (contributors t dataC1).length →
        ∀ e, envC1.tmdb t = .error e →
          ∃ m ∈ out, m.Title = t ∧ m.Count = (contributors t dataC1).length ∧
            m.Rating = 0 ∧ m.FormattedRating = "N/A" ∧
            m.Overview = "No overview available." ∧
            m.Runtime = 0 ∧ m.FormattedRuntime = "" ∧
            m.PosterURL = noPosterURL ∧ m.BackdropURL = noPosterURL ∧
            m.LogoURL = "" ∧ m.Genres = [] ∧ m.Cast = [] :=
  C6_resolution_failure_recovered envC1 ["alice", "bob"] dataC1
    (by decide) (by decide) (by decide) (by decide)

/-- Claim C9: an API key shorter than 10 bytes makes every GetTMDBDetails
call fail as not-configured, and FindCommonMovies still succeeds: every
surviving title is returned, every record carrying placeholder metadata. -/
theorem C9_unconfigured_key_degrades (apiKey : String) (hkey : apiKey.utf8ByteSize < 10)
    (tenv : String → TMDBEnv)
    (avatarF : String → Except String String)
    (scrapeF : String → Except String (List (String × String)))
    (usernames : List String)
    (data : List (String × List (String × String)))
    (hne : usernames ≠ [])
    (hval : validateUsers ⟨avatarF, scrapeF, fun t => (GetTMDBDetails apiKey (tenv t) t).2⟩
      usernames = .ok ())
    (hdata : fetchWatchlists ⟨avatarF, scrapeF, fun t => (GetTMDBDetails apiKey (tenv t) t).2⟩
      usernames = .ok data)
    (hwl : ∀ uw ∈ data, (uw.2.map Prod.fst).Nodup) :
    (∀ t (envT : TMDBEnv),
      (GetTMDBDetails apiKey envT t).2 = .error "TMDB API key not configured") ∧
    ∃ out, FindCommonMovies ⟨avatarF, scrapeF, fun t => (GetTMDBDetails apiKey (tenv t) t).2⟩
        usernames = .ok out ∧
      (∀ t, 2 ≤ (contributors t data).length → ∃ m ∈ out, m.Title = t) ∧
      ∀ m ∈ out, m.Rating = 0 ∧ m.FormattedRating = "N/A" ∧
        m.Overview = "No overview available." ∧ m.Runtime = 0 ∧
        m.FormattedRuntime = "" ∧ m.PosterURL = noPosterURL ∧
        m.BackdropURL = noPosterURL ∧ m.Genres = [] ∧ m.Cast = [] := by
  have hshort : ∀ t (envT : TMDBEnv),
      (GetTMDBDetails apiKey envT t).2 = .error "TMDB API key not configured" := by
    intro t envT
    unfold GetTMDBDetails
    rw [if_pos (Or.inr hkey)]
  refine ⟨hshort, sortMovies (processedMovies
      ⟨avatarF, scrapeF, fun t => (GetTMDBDetails apiKey (tenv t) t).2⟩
      (buildCounts data)), ?_, ?_, ?_⟩
  · exact (FindCommonMovies_ok_iff _ usernames _).mpr ⟨hne, hval, data, hdata, rfl⟩
  · intro t hge
    have hlook := lookupTitle_buildCounts data hwl t
    match hf : firstHit t data with
    | none =>
      have hc := (firstHit_eq_none_iff t data).mp hf
      rw [hc] at hge
      simp at hge
    | some url =>
      rw [hf] at hlook
      have hmem : (t, AggData.mk (contributors t data) url) ∈ buildCounts data :=
        mem_of_lookupTitle_eq_some _ _ _ hlook
      have hm : makeMovie (fun t2 => (GetTMDBDetails apiKey (tenv t2) t2).2)
          (avatarOf ⟨avatarF, scrapeF, fun t2 => (GetTMDBDetails apiKey (tenv t2) t2).2⟩)
          t (AggData.mk (contributors t data) url) ∈
          processedMovies ⟨avatarF, scrapeF, fun t2 => (GetTMDBDetails apiKey (tenv t2) t2).2⟩
            (buildCounts data) :=
        (mem_processedMovies _ _ _).mpr
          ⟨(t, AggData.mk (contributors t data) url), hmem, by simpa using hge, rfl⟩
      refine ⟨_, (sortMovies_perm _).mem_iff.mpr hm, ?_⟩
      rw [makeMovie_Title]
  · intro m hm
    have hm2 := (sortMovies_perm _).mem_iff.mp hm
    obtain ⟨td, htd, hlen, heq⟩ := (mem_processedMovies _ _ _).mp hm2
    rw [heq, makeMovie_of_error _ _ td.1 td.2 "TMDB API key not configured" (hshort td.1 (tenv td.1))]
    exact ⟨rfl, rfl, rfl, rfl, rfl, rfl, rfl, rfl, rfl⟩

/-- Witness for C9 at a concrete input: the key "short" (5 bytes) degrades
every record of envC9 to placeholders while the call still succeeds. -/
theorem C9_unconfigured_key_degrades_witness :
    (∀ t (envT : TMDBEnv),
      (GetTMDBDetails "short" envT t).2 = .error "TMDB API key not configured") ∧
    ∃ out, FindCommonMovies ⟨envC9.avatar, envC9.scrape,
        fun t => (GetTMDBDetails "short" (tenvC9 t) t).2⟩ ["alice", "bob"] = .ok out ∧
      (∀ t, 2 ≤ (contributors t dataC1).length → ∃ m ∈ out, m.Title = t) ∧
      ∀ m ∈ out, m.Rating = 0 ∧ m.FormattedRating = "N/A" ∧
        m.Overview = "No overview available." ∧ m.Runtime = 0 ∧
        m.FormattedRuntime = "" ∧ m.PosterURL = noPosterURL ∧
        m.BackdropURL = noPosterURL ∧ m.Genres = [] ∧ m.Cast = [] :=
  C9_unconfigured_key_degrades "short" (by decide) tenvC9 envC9.avatar envC9.scrape
    ["alice", "bob"] dataC1 (by decide) (by decide) (by decide) (by decide)

theorem makeMovie_of_ok (tmdb : String → Except String TMDBMovie) (avatars : String → String)
    (title : String) (d : AggData) (td : TMDBMovie) (h : tmdb title = .ok td) :
    makeMovie tmdb avatars title d =
      buildMovieOk title d.URL (d.Users.map (fun u => User.mk u (avatars u)))
        d.Users.length td := by
  unfold makeMovie
  rw [h]

theorem findDirector_eq_find? (crew : List CrewMember) :
    findDirector crew =
      match crew.find? (fun c => decide (c.Job = "Director")) with
      | some c => Person.mk c.Name c.ID
      | none => Person.mk "N/A" 0 := by
  induction crew with
  | nil => rfl
  | cons c cs ih =>
    by_cases h : c.Job = "Director"
    · rw [List.find?_cons_of_pos cs (by simpa using h)]
      simp [findDirector, h]
    · rw [List.find?_cons_of_neg cs (by simpa using h)]
      simp only [findDirector, h, if_false]
      exact ih

/-- Counterexample for C7: on a payload with zero genres and zero crew the
director sentinel the code produces is named "N/A", not "unknown" as the
claim states. -/
theorem C7_unknown_sentinel_cex :
    (makeMovie (fun _ => .ok tdEmptyCredits) (fun _ => "av") "T" ⟨["a", "b"], "u"⟩).Director =
        Person.mk "N/A" 0 ∧
      (makeMovie (fun _ => .ok tdEmptyCredits) (fun _ => "av") "T" ⟨["a", "b"], "u"⟩).Director.Name ≠
        "unknown" := by
  decide

/-- Claim C7 (amended: the sentinel is "N/A" with identifier 0, not
"unknown"): from a successfully fetched payload, the director is the first
crew member whose job equals "Director", else the "N/A" sentinel with
identifier 0; the cast is at most the first 5 cast members; a payload with
zero genres and zero crew gives an empty genre list and the sentinel, not
an error. -/
theorem C7_director_and_cast (tmdb : String → Except String TMDBMovie)
    (avatars : String → String) (title : String) (d : AggData) (td : TMDBMovie)
    (h : tmdb title = .ok td) :
    (makeMovie tmdb avatars title d).Director =
      (match td.CreditsCrew.find? (fun c => decide (c.Job = "Director")) with
        | some c => Person.mk c.Name c.ID
        | none => Person.mk "N/A" 0) ∧
    (makeMovie tmdb avatars title d).Cast =
      (td.CreditsCast.map (fun c => Person.mk c.Name c.ID)).take 5 ∧
    (makeMovie tmdb avatars title d).Cast.length ≤ 5 ∧
    (td.Genres = [] → td.CreditsCrew = [] →
      (makeMovie tmdb avatars title d).Genres = [] ∧
        (makeMovie tmdb avatars title d).Director = Person.mk "N/A" 0) := by
  rw [makeMovie_of_ok tmdb avatars title d td h]
  refine ⟨?_, ?_, ?_, ?_⟩
  · show findDirector td.CreditsCrew = _
    exact findDirector_eq_find? td.CreditsCrew
  · show (td.CreditsCast.take 5).map (fun c => Person.mk c.Name c.ID) = _
    rw [List.map_take]
  · show ((td.CreditsCast.take 5).map (fun c => Person.mk c.Name c.ID)).length ≤ 5
    rw [List.length_map, List.length_take]
    omega
  · intro hg hc
    constructor
    · show td.Genres.map Genre.Name = []
      rw [hg]
      rfl
    · show findDirector td.CreditsCrew = _
      rw [hc]
      rfl

/-- Witness for C7 at a concrete input: tdC7's director is the first crew
member with job "Director" and its cast is cut to 5. -/
theorem C7_director_and_cast_witness :
    (makeMovie (fun _ => .ok tdC7) (fun _ => "av") "The Matrix" ⟨["a", "b"], "u"⟩).Director =
      (match tdC7.CreditsCrew.find? (fun c => decide (c.Job = "Director")) with
        | some c => Person.mk c.Name c.ID
        | none => Person.mk "N/A" 0) ∧
    (makeMovie (fun _ => .ok tdC7) (fun _ => "av") "The Matrix" ⟨["a", "b"], "u"⟩).Cast =
      (tdC7.CreditsCast.map (fun c => Person.mk c.Name c.ID)).take 5 ∧
    (makeMovie (fun _ => .ok tdC7) (fun _ => "av") "The Matrix" ⟨["a", "b"], "u"⟩).Cast.length ≤ 5 ∧
    (tdC7.Genres = [] → tdC7.CreditsCrew = [] →
      (makeMovie (fun _ => .ok tdC7) (fun _ => "av") "The Matrix" ⟨["a", "b"], "u"⟩).Genres = [] ∧
        (makeMovie (fun _ => .ok tdC7) (fun _ => "av") "The Matrix" ⟨["a", "b"], "u"⟩).Director =
          Person.mk "N/A" 0) :=
  C7_director_and_cast (fun _ => .ok tdC7) (fun _ => "av") "The Matrix" ⟨["a", "b"], "u"⟩ tdC7 rfl

/-- Claim C5: a 429 search response makes the resolver sleep 2000 ms and
re-issue the same variant's request exactly once (two requests in the
step's trace, then whatever the retry returned is checked normally); a
transport error, a non-200/non-429 status, or a parse failure records the
error and moves on to the next variant instead of aborting. -/
theorem C5_rate_limit_retry :
    (∀ (year : Option String) (v : String) (b : Except String (List Int))
        (r : HttpResult) (net2 : List HttpResult),
      searchStep year v (.resp 429 b :: r :: net2) =
        ⟨[.get v year, .sleepMs 2000, .get v year], checkResp r, net2⟩) ∧
    (∀ (year : Option String) (v : String) (b : Except String (List Int))
        (r : HttpResult) (net2 : List HttpResult),
      (searchStep year v (.resp 429 b :: r :: net2)).trace.countP
        (fun e => decide (e = .get v year)) = 2) ∧
    (∀ (year : Option String) (v : String) (vs : List String) (first : Bool)
        (err : Option String) (e : String) (net2 : List HttpResult),
      searchLoop year (v :: vs) first err (.transportErr e :: net2) =
        ⟨(if first then [] else [.sleepMs 250]) ++ .get v year ::
            (searchLoop year vs false (some ("network error: " ++ e)) net2).trace,
          (searchLoop year vs false (some ("network error: " ++ e)) net2).movieID,
          (searchLoop year vs false (some ("network error: " ++ e)) net2).err,
          (searchLoop year vs false (some ("network error: " ++ e)) net2).net⟩) ∧
    (∀ (year : Option String) (v : String) (vs : List String) (first : Bool)
        (err : Option String) (st : Nat) (body : Except String (List Int))
        (net2 : List HttpResult), st ≠ 200 → st ≠ 429 →
      searchLoop year (v :: vs) first err (.resp st body :: net2) =
        ⟨(if first then [] else [.sleepMs 250]) ++ .get v year ::
            (searchLoop year vs false
              (some ("API error: status code " ++ toString st)) net2).trace,
          (searchLoop year vs false
            (some ("API error: status code " ++ toString st)) net2).movieID,
          (searchLoop year vs false
            (some ("API error: status code " ++ toString st)) net2).err,
          (searchLoop year vs false
            (some ("API error: status code " ++ toString st)) net2).net⟩) ∧
    (∀ (year : Option String) (v : String) (vs : List String) (first : Bool)
        (err : Option String) (pe : String) (net2 : List HttpResult),
      searchLoop year (v :: vs) first err (.resp 200 (.error pe) :: net2) =
        ⟨(if first then [] else [.sleepMs 250]) ++ .get v year ::
            (searchLoop year vs false (some ("parse error: " ++ pe)) net2).trace,
          (searchLoop year vs false (some ("parse error: " ++ pe)) net2).movieID,
          (searchLoop year vs false (some ("parse error: " ++ pe)) net2).err,
          (searchLoop year vs false (some ("parse error: " ++ pe)) net2).net⟩) ∧
    (∀ (year : Option String) (v : String) (vs : List String) (first : Bool)
        (err : Option String) (b : Except String (List Int)) (st : Nat)
        (body : Except String (List Int)) (net2 : List HttpResult), st ≠ 200 →
      searchLoop year (v :: vs) first err (.resp 429 b :: .resp st body :: net2) =
        ⟨(if first then [] else [.sleepMs 250]) ++
            [HttpEvent.get v year, .sleepMs 2000, .get v year] ++
            (searchLoop year vs false
              (some ("API error: status code " ++ toString st)) net2).trace,
          (searchLoop year vs false
            (some ("API error: status code " ++ toString st)) net2).movieID,
          (searchLoop year vs false
            (some ("API error: status code " ++ toString st)) net2).err,
          (searchLoop year vs false
            (some ("API error: status code " ++ toString st)) net2).net⟩) := by
  refine ⟨?_, ?_, ?_, ?_, ?_, ?_⟩
  · intro year v b r net2
    rfl
  · intro year v b r net2
    show ([HttpEvent.get v year, .sleepMs 2000, .get v year]).countP
      (fun e => decide (e = .get v year)) = 2
    simp [List.countP_cons]
  · intro year v vs first err e net2
    simp [searchLoop, searchStep]
  · intro year v vs first err st body net2 h200 h429
    simp only [searchLoop, searchStep, checkResp, h429, if_false, if_neg h429]
    rw [if_pos (by exact h200)]
    simp
  · intro year v vs first err pe net2
    simp [searchLoop, searchStep, checkResp]
  · intro year v vs first err b st body net2 h200
    simp [searchLoop, searchStep, checkResp, h200]

/-- Witness for C5 at a concrete input: a 429 followed by a successful
retry, and a 500 that records the error and ends the (single-variant)
loop with no match. -/
theorem C5_rate_limit_retry_witness :
    searchStep none "Dune" [.resp 429 (.ok []), .resp 200 (.ok [42])] =
      ⟨[.get "Dune" none, .sleepMs 2000, .get "Dune" none],
        checkResp (.resp 200 (.ok [42])), []⟩ ∧
    searchLoop none ["Dune"] true none [.resp 500 (.ok [])] =
      ⟨[.get "Dune" none], none, some "API error: status code 500", []⟩ ∧
    searchLoop none ["Dune"] true none [.resp 429 (.ok []), .resp 429 (.ok [])] =
      ⟨[.get "Dune" none, .sleepMs 2000, .get "Dune" none], none,
        some "API error: status code 429", []⟩ := by
  refine ⟨?_, ?_, ?_⟩
  · exact C5_rate_limit_retry.1 none "Dune" (.ok []) (.resp 200 (.ok [42])) []
  · have h := C5_rate_limit_retry.2.2.2.1 none "Dune" [] true none 500 (.ok []) []
      (by decide) (by decide)
    simpa using h
  · have h := C5_rate_limit_retry.2.2.2.2.2 none "Dune" [] true none (.ok []) 429 (.ok []) []
      (by decide)
    simpa using h

theorem data_mk (l : List Char) : (String.mk l).data = l := rfl

theorem applyReplacements_single (c : Char) : applyReplacements [c] = replaceChar c := by
  by_cases h1 : c = '&'
  · subst h1; rfl
  · by_cases h2 : c = '\''
    · subst h2; rfl
    · by_cases h3 : c = '-'
      · subst h3; rfl
      · by_cases h4 : c = ':'
        · subst h4; rfl
        · simp [applyReplacements, replacePair, replaceChar, h1, h2, h3, h4]

theorem applyReplacements_cons (c : Char) (cs : List Char) :
    applyReplacements (c :: cs) = applyReplacements [c] ++ applyReplacements cs := by
  simp [applyReplacements, replacePair, List.flatMap_cons, List.flatMap_append]

theorem applyReplacements_eq_flatMap (s : List Char) :
    applyReplacements s = s.flatMap replaceChar := by
  induction s with
  | nil => rfl
  | cons c cs ih =>
    rw [applyReplacements_cons, applyReplacements_single, ih, List.flatMap_cons]

theorem altTitle_eq_claimAltTitle (t : String) : altTitle t = claimAltTitle t := by
  unfold altTitle claimAltTitle
  rw [applyReplacements_eq_flatMap]

theorem cleanTitle_eq_amendedCleanTitle (t : String) : cleanTitle t = amendedCleanTitle t := rfl

/-- Counterexample for C4: for the input title "a_b" the code's variant
list is just ["a_b"] — the Go regexp class \w keeps the underscore, so
variant (b) does not differ and is dropped — while the claim's literal
reading (remove every character that is not alphanumeric or space) would
add the distinct variant "ab". -/
theorem C4_variants_cex :
    searchVariations (stripYear "a_b") ≠ claimedVariations (stripYear "a_b") ∧
      searchVariations (stripYear "a_b") = ["a_b"] ∧
      claimedVariations (stripYear "a_b") = ["a_b", "ab"] := by
  decide

/-- Claim C4 (amended: variant (b) removes the characters that are neither
word characters — letters, digits, underscore — nor whitespace): metadata
resolution extracts and strips a trailing parenthesized 4-digit year, tries
the variants (a), (b) if different, (c) if different, in that order, and
the first variant whose response has at least one candidate short-circuits
the loop with that response's first candidate identifier. -/
theorem C4_variant_plan :
    (∀ (pre : List Char) (a b c d : Char),
      a.isDigit → b.isDigit → c.isDigit → d.isDigit →
        yearSuffix (String.mk (pre ++ ['(', a, b, c, d, ')'])) =
            some (String.mk [a, b, c, d]) ∧
          stripYear (String.mk (pre ++ ['(', a, b, c, d, ')'])) = trimGo (String.mk pre)) ∧
    (∀ t : String, searchVariations t = amendedVariations t) ∧
    (∀ (year : Option String) (v : String) (vs : List String) (first : Bool)
        (err : Option String) (id : Int) (ids : List Int) (net2 : List HttpResult),
      searchLoop year (v :: vs) first err (.resp 200 (.ok (id :: ids)) :: net2) =
        ⟨(if first then [] else [.sleepMs 250]) ++ [.get v year], some id, err, net2⟩) ∧
    (∀ (year : Option String) (v : String) (vs : List String) (first : Bool)
        (err : Option String) (net : List HttpResult) (tr : List HttpEvent)
        (id : Int) (net2 : List HttpResult),
      searchStep year v net = ⟨tr, .found id, net2⟩ →
        searchLoop year (v :: vs) first err net =
          ⟨(if first then [] else [.sleepMs 250]) ++ tr, some id, err, net2⟩) := by
  refine ⟨?_, ?_, ?_, ?_⟩
  · intro pre a b c d ha hb hc hd
    have hlen : (pre ++ ['(', a, b, c, d, ')']).length = pre.length + 6 := by simp
    have harith : pre.length + 6 - 6 = pre.length := by omega
    have hdrop : (pre ++ ['(', a, b, c, d, ')']).drop
        ((pre ++ ['(', a, b, c, d, ')']).length - 6) = ['(', a, b, c, d, ')'] := by
      rw [hlen, harith]
      exact List.drop_left pre _
    have htake : (pre ++ ['(', a, b, c, d, ')']).take
        ((pre ++ ['(', a, b, c, d, ')']).length - 6) = pre := by
      rw [hlen, harith]
      exact List.take_left pre _
    have hy : yearSuffix (String.mk (pre ++ ['(', a, b, c, d, ')'])) =
        some (String.mk [a, b, c, d]) := by
      unfold yearSuffix
      rw [data_mk, if_pos (by rw [hlen]; omega), hdrop]
      simp [yearOfSix, ha, hb, hc, hd]
    refine ⟨hy, ?_⟩
    unfold stripYear
    rw [hy, data_mk, htake]
  · intro t
    unfold searchVariations amendedVariations
    rw [cleanTitle_eq_amendedCleanTitle, altTitle_eq_claimAltTitle]
  · intro year v vs first err id ids net2
    simp [searchLoop, searchStep, checkResp]
  · intro year v vs first err net tr id net2 h
    simp [searchLoop, h]

/-- Witness for C4 at concrete inputs: "Dune (2021)" strips to "Dune" with
year "2021"; "Fast & Furious" yields the three variants in order; a first
response with candidates short-circuits with its first identifier. -/
theorem C4_variant_plan_witness :
    (yearSuffix (String.mk ("Dune ".data ++ ['(', '2', '0', '2', '1', ')'])) =
        some (String.mk ['2', '0', '2', '1']) ∧
      stripYear (String.mk ("Dune ".data ++ ['(', '2', '0', '2', '1', ')'])) =
        trimGo (String.mk "Dune ".data)) ∧
    searchVariations "Fast & Furious" = amendedVariations "Fast & Furious" ∧
    searchLoop none ["Dune"] true none [.resp 200 (.ok [42, 7])] =
      ⟨[.get "Dune" none], some 42, none, []⟩ ∧
    searchLoop none ["Dune"] true none [.resp 429 (.ok []), .resp 200 (.ok [42, 7])] =
      ⟨[.get "Dune" none, .sleepMs 2000, .get "Dune" none], some 42, none, []⟩ := by
  refine ⟨?_, ?_, ?_, ?_⟩
  · exact C4_variant_plan.1 "Dune ".data '2' '0' '2' '1'
      (by decide) (by decide) (by decide) (by decide)
  · exact C4_variant_plan.2.1 "Fast & Furious"
  · have h := C4_variant_plan.2.2.1 none "Dune" [] true none 42 [7] []
    simpa using h
  · have h := C4_variant_plan.2.2.2 none "Dune" [] true none
      [.resp 429 (.ok []), .resp 200 (.ok [42, 7])]
      [.get "Dune" none, .sleepMs 2000, .get "Dune" none] 42 [] (by decide)
    simpa using h

end Klisse
